import Mathlib

/-
Verification development for the geo-dash pattern generation and validation
core.  The Python sources are embedded shallowly:

* Python floats are modelled as exact rationals (ℚ).  Every float literal in
  the relevant code (0.8, 0.7, 0.6, 0.4, 1.5, ...) is an exact decimal, and
  all truncations `int(...)` land well away from integer boundaries, so the
  rational model agrees with IEEE double evaluation on everything proved here.
* Python `int(x)` (truncation toward zero) is `pyInt`.
* Obstacle records `{'bar_type': 'bar-…', 'gap_type': 'gap-…', 'is_killzone': b}`
  are modelled after the boundary parse: `bar_parts` is the list of numeric
  fields of `bar_type` after stripping the `bar-` tag (`has_bar_tag` records
  whether the tag was present, which only `scale_pattern_widths` looks at),
  and `gap_mult` is the numeric gap multiplier of `gap_type`.
* The f-string failure messages are modelled as inductive messages carrying
  the same data the f-strings interpolate.
-/

/-- Python `int()` on an exact rational: truncation toward zero. -/
def pyInt (q : ℚ) : ℤ := if 0 ≤ q then ⌊q⌋ else ⌈q⌉

/-! ### Physics constants (src/generators/physics_engine.py lines 8-25,
    duplicated in src/archive/pattern_generator_v3.py lines 34-48) -/
def GRAVITY : ℚ := 0.8

def JUMP_POWER : ℚ := -15

def PLAYER_SPEED : ℚ := 6

def GROUND_Y : ℤ := 600

def PLAYER_WIDTH : ℚ := 40

def PLAYER_HEIGHT : ℚ := 40

def max_jump_height : ℚ := |JUMP_POWER| ^ 2 / (2 * GRAVITY)

def MAX_OBSTACLE_HEIGHT : ℤ := pyInt (max_jump_height * 0.7)

def time_to_peak : ℚ := |JUMP_POWER| / GRAVITY

def total_air_time : ℚ := time_to_peak * 2

def MAX_JUMP_DISTANCE : ℤ := pyInt (total_air_time * PLAYER_SPEED)

def MIN_SAFE_GAP : ℤ := pyInt (PLAYER_SPEED * 10)

def MAX_FORWARD_JUMP_HEIGHT : ℤ := pyInt ((MAX_OBSTACLE_HEIGHT : ℚ) * 0.4)

def MAX_CLIMB_HEIGHT : ℤ := pyInt ((MAX_OBSTACLE_HEIGHT : ℚ) * 0.6)

/-! ### Trajectory simulator
    (src/generators/physics_engine.py, calculate_jump_trajectory, lines 28-60).
    The loop appends the current point, advances the state, and breaks when the
    advanced point has reached the ground plane or flown past the distance
    margin; `num_steps` is the fuel (all callers use the default 50). -/
def trajAux (sx : ℚ) : ℚ → ℚ → ℚ → ℕ → List (ℚ × ℚ)
  | _, _, _, 0 => []
  | x, y, vy, n + 1 =>
    if (GROUND_Y : ℚ) ≤ y + vy ∨ sx + (MAX_JUMP_DISTANCE : ℚ) + 100 < x + PLAYER_SPEED
    then [(x, y)]
    else (x, y) :: trajAux sx (x + PLAYER_SPEED) (y + vy) (vy + GRAVITY) n

def calculate_jump_trajectory (start_x start_y : ℚ) : List (ℚ × ℚ) :=
  trajAux start_x start_x start_y JUMP_POWER 50

/-! ### Closed-form view of the simulated points -/
def vel (k : ℕ) : ℚ := JUMP_POWER + GRAVITY * k

def trajX (sx : ℚ) (k : ℕ) : ℚ := sx + PLAYER_SPEED * k

def trajY (sy : ℚ) : ℕ → ℚ
  | 0 => sy
  | k + 1 => trajY sy k + vel k

/-- The loop's break condition, read off the ideal point `j`. -/
def stopAt (sx sy : ℚ) (j : ℕ) : Prop :=
  (GROUND_Y : ℚ) ≤ trajY sy j ∨ sx + (MAX_JUMP_DISTANCE : ℚ) + 100 < trajX sx j

instance (sx sy : ℚ) (j : ℕ) : Decidable (stopAt sx sy j) :=
  inferInstanceAs (Decidable (_ ∨ _))

/-- Number of points the loop emits from ideal index `k` with fuel `n`. -/
def runLen (sx sy : ℚ) : ℕ → ℕ → ℕ
  | _, 0 => 0
  | k, n + 1 => if stopAt sx sy (k + 1) then 1 else 1 + runLen sx sy (k + 1) n

/-! ### Obstacle records and dimension resolution.
    An obstacle is the boundary record after parsing its two strings:
    `bar_parts` are the dash-separated numeric fields of `bar_type` once the
    `bar-` tag is stripped (`has_bar_tag` remembers whether the tag was there;
    only `scale_pattern_widths` tests it), `gap_mult` is the numeric gap
    multiplier of `gap_type` (a trailing hazard tag is ignored by the
    trajectory validator's parse). -/
structure ObstacleSpec where
  has_bar_tag : Bool
  bar_parts : List ℕ
  gap_mult : ℚ
  is_killzone : Bool

/-- Width/height resolution of physics_engine.validate_pattern (lines 181-199):
three fields mean a floating platform whose landing height is the ceiling,
two or more mean a ground bar, anything shorter falls back to 30x30. -/
def resolveWH (parts : List ℕ) : ℤ × ℤ :=
  match parts with
  | [w, _, c] => ((w : ℤ) * 30, (c : ℤ) * 30)
  | w :: h :: _ => ((w : ℤ) * 30, (h : ℤ) * 30)
  | _ => (30, 30)

/-- Gap resolution shared by both validators: `int(gap_mult * 100)`. -/
def gapAfter (o : ObstacleSpec) : ℤ := pyInt (o.gap_mult * 100)

/-- A positioned platform as built by physics_engine.validate_pattern
(lines 176-216).  The unused `height` entry of the source dict is omitted. -/
structure Platform where
  x : ℤ
  y_top : ℤ
  width : ℤ
  is_killzone : Bool

/-- Left-to-right placement starting at x=800 (lines 178-216). -/
def buildAux : ℤ → List ObstacleSpec → List Platform
  | _, [] => []
  | x, o :: rest =>
    ⟨x, GROUND_Y - (resolveWH o.bar_parts).2, (resolveWH o.bar_parts).1,
      o.is_killzone⟩ ::
      buildAux (x + (resolveWH o.bar_parts).1 + gapAfter o) rest

def buildPlatforms (l : List ObstacleSpec) : List Platform := buildAux 800 l

/-! ### Reachability (physics_engine.py lines 63-157) -/
def platform_intersects_trajectory (traj : List (ℚ × ℚ))
    (platform_x platform_top platform_width : ℚ) : Bool :=
  traj.any fun p =>
    decide ((platform_x ≤ p.1 + PLAYER_WIDTH ∧ p.1 ≤ platform_x + platform_width) ∧
      platform_top - 5 ≤ p.2 + PLAYER_HEIGHT)

/-- Failure diagnostics of can_reach_platform, with the interpolated data. -/
inductive ReachMsg where
  | arcOk : ReachMsg
  | gapExceeds : ℤ → ReachMsg
  | notInArc : ℤ → ℤ → ReachMsg
deriving DecidableEq

def can_reach_platform (prev next_ : Platform) : Bool × ReachMsg :=
  if platform_intersects_trajectory
      (calculate_jump_trajectory ((prev.x + prev.width : ℤ) : ℚ) (prev.y_top : ℚ))
      (next_.x : ℚ) (next_.y_top : ℚ) (next_.width : ℚ)
  then (true, ReachMsg.arcOk)
  else if MAX_JUMP_DISTANCE < next_.x - (prev.x + prev.width)
  then (false, ReachMsg.gapExceeds (next_.x - (prev.x + prev.width)))
  else (false, ReachMsg.notInArc (next_.x - (prev.x + prev.width))
    (next_.y_top - prev.y_top))

/-! ### Trajectory-based pattern validator (physics_engine.py lines 160-254) -/
inductive PeMsg where
  | noObstacles : PeMsg
  | patternValid : PeMsg
  | notReachableAfterLava : ℕ → ReachMsg → PeMsg
  | notReachable : ℕ → ReachMsg → PeMsg
deriving DecidableEq

/-- The i-loop of validate_pattern: `prev` is the predecessor platform,
`touches` the accumulated touches_ground flag. -/
def validateWalk : ℕ → Bool → Platform → List Platform → Bool × PeMsg × Bool
  | _, touches, _, [] => (true, PeMsg.patternValid, touches)
  | i, touches, prev, cur :: rest =>
    if cur.is_killzone then validateWalk (i + 1) touches cur rest
    else if prev.is_killzone then
      match can_reach_platform ⟨prev.x, GROUND_Y, prev.width, false⟩ cur with
      | (true, _) => validateWalk (i + 1) true cur rest
      | (false, r) => (false, PeMsg.notReachableAfterLava i r, touches)
    else
      match can_reach_platform prev cur,
        (calculate_jump_trajectory ((prev.x + prev.width : ℤ) : ℚ)
            (prev.y_top : ℚ)).any
          (fun p => decide ((GROUND_Y : ℚ) ≤ p.2 + PLAYER_HEIGHT)) with
      | (true, _), dip => validateWalk (i + 1) (touches || dip) cur rest
      | (false, r), dip => (false, PeMsg.notReachable i r, touches || dip)

/-- physics_engine.validate_pattern: returns (is_valid, message, touches_ground). -/
def pe_validate (l : List ObstacleSpec) : Bool × PeMsg × Bool :=
  match buildPlatforms l with
  | [] => (false, PeMsg.noObstacles, false)
  | p :: rest => validateWalk 1 false p rest

/-! ### Analytic validator (src/archive/pattern_generator_v3.py lines 54-141) -/
/-- Failure messages of the analytic validator with their interpolated data
(the source's player_y variable is assigned but never read, so it is not
modelled). -/
inductive V3Msg where
  | noObstacles : V3Msg
  | patternValid : V3Msg
  | firstTooTall : ℤ → V3Msg
  | stackClimb : ℕ → ℤ → V3Msg
  | gapTooFar : ℕ → ℤ → V3Msg
  | narrowGap : ℕ → ℤ → V3Msg
  | forwardJump : ℕ → ℤ → V3Msg
deriving DecidableEq

/-- Resolved obstacle of the analytic validator (lines 62-85): the height is
always the second numeric field, also for floating platforms. -/
structure RObs where
  width : ℤ
  height : ℤ
  gap_after : ℤ
  is_killzone : Bool
deriving DecidableEq

def resolveV3Obs (o : ObstacleSpec) : RObs :=
  match o.bar_parts with
  | w :: h :: _ => ⟨(w : ℤ) * 30, (h : ℤ) * 30, gapAfter o, o.is_killzone⟩
  | _ => ⟨30, 30, gapAfter o, o.is_killzone⟩

/-- The transition checks of the i-th obstacle against its predecessor
(lines 101-139), in source order.  `vertical_diff = prev_top - obstacle_top`
is negative exactly when the next obstacle is LOWER, so the forward-jump
branch fires only on descents. -/
def checkTransitionV3 (i : ℕ) (prev cur : RObs) : Option V3Msg :=
  if prev.gap_after = 0 then
    if 0 < cur.height - prev.height ∧ MAX_CLIMB_HEIGHT < cur.height - prev.height
    then some (V3Msg.stackClimb i (cur.height - prev.height))
    else none
  else
    if MAX_JUMP_DISTANCE < prev.gap_after
    then some (V3Msg.gapTooFar (i - 1) prev.gap_after)
    else if cur.width < 60 ∧ prev.gap_after < MIN_SAFE_GAP
    then some (V3Msg.narrowGap (i - 1) prev.gap_after)
    else if (GROUND_Y - prev.height) - (GROUND_Y - cur.height) < 0 ∧
        MAX_FORWARD_JUMP_HEIGHT < |(GROUND_Y - prev.height) - (GROUND_Y - cur.height)|
    then some (V3Msg.forwardJump i |(GROUND_Y - prev.height) - (GROUND_Y - cur.height)|)
    else none

/-- The i-loop over consecutive pairs; `i` is the index of the second element
of the pair. -/
def v3_walk : ℕ → List RObs → Option V3Msg
  | _, [] => none
  | _, [_] => none
  | i, a :: b :: rest =>
    match checkTransitionV3 i a b with
    | some m => some m
    | none => v3_walk (i + 1) (b :: rest)

/-- pattern_generator_v3.validate_pattern: (is_valid, message). -/
def v3_validate (l : List ObstacleSpec) : Bool × V3Msg :=
  match l.map resolveV3Obs with
  | [] => (false, V3Msg.noObstacles)
  | a :: rest =>
    if MAX_OBSTACLE_HEIGHT < a.height then (false, V3Msg.firstTooTall a.height)
    else
      match v3_walk 1 (a :: rest) with
      | some m => (false, m)
      | none => (true, V3Msg.patternValid)

/-! ### Spec-side predicates for Scenario E (floating patterns, ground dips) -/
/-- True when every obstacle is a floating platform (three numeric fields)
and none is a killzone. -/
def floatingOnly (l : List ObstacleSpec) : Bool :=
  l.all fun o => o.bar_parts.length == 3 && !o.is_killzone

/-- True when no simulated sub-trajectory of the walk dips a player bottom to
the ground plane. -/
def noDipPlats : List Platform → Bool
  | [] => true
  | [_] => true
  | p :: q :: rest =>
    !((calculate_jump_trajectory ((p.x + p.width : ℤ) : ℚ) (p.y_top : ℚ)).any
        fun pt => decide ((GROUND_Y : ℚ) ≤ pt.2 + PLAYER_HEIGHT)) &&
      noDipPlats (q :: rest)

def noDip (l : List ObstacleSpec) : Bool := noDipPlats (buildPlatforms l)

/-! ### Concrete patterns used in the scenarios -/
/-- Scenario A: ground bars 30px then 90px with a zero gap (a stacked climb
of 60px). -/
def scenarioA : List ObstacleSpec :=
  [⟨true, [2, 1], 0, false⟩, ⟨true, [2, 3], 1.5, false⟩]

/-- A second stacked 60px climb (widths 90px) for the validator comparison. -/
def scenarioA3 : List ObstacleSpec :=
  [⟨true, [3, 1], 0, false⟩, ⟨true, [3, 3], 1.5, false⟩]

/-- Scenario C: a 30px-wide bar behind a 50px gap. -/
def narrowPattern : List ObstacleSpec :=
  [⟨true, [2, 1], 0.5, false⟩, ⟨true, [1, 1], 1.5, false⟩]

/-- An upward 60px gap jump (30px bar, 100px gap, 90px bar). -/
def upJumpPattern : List ObstacleSpec :=
  [⟨true, [2, 1], 1, false⟩, ⟨true, [2, 3], 1.5, false⟩]

/-- Scenario E: two floating platforms with landing surfaces 300px above
ground and a 50px gap. -/
def floatGood : List ObstacleSpec :=
  [⟨true, [2, 1, 10], 0.5, false⟩, ⟨true, [2, 1, 10], 1.5, false⟩]

/-- Floating platforms 900px apart: no sub-trajectory dips, but the second
platform is out of reach. -/
def floatFar : List ObstacleSpec :=
  [⟨true, [2, 1, 10], 9, false⟩, ⟨true, [2, 1, 10], 1.5, false⟩]

/-- Floating platforms with a 100px gap, used as witness input. -/
def floatW : List ObstacleSpec :=
  [⟨true, [2, 1, 10], 1, false⟩, ⟨true, [2, 1, 10], 1, false⟩]

/-! ### Difficulty scaling (src/generators/pattern_library.py lines 488-522) -/
/-- One obstacle of scale_pattern_widths: only `bar-`-tagged types with at
least two numeric fields are rewritten; the width becomes
max(2, int(width * scale_factor)); a three-field type keeps floor and
ceiling, any other shape is reserialised as two fields (dropping extras,
exactly as the source f-string does). -/
def scaleObs (f : ℚ) (o : ObstacleSpec) : ObstacleSpec :=
  if o.has_bar_tag then
    match o.bar_parts with
    | [w, p1, p2] =>
      ⟨o.has_bar_tag, [(max 2 (pyInt ((w : ℚ) * f))).toNat, p1, p2],
        o.gap_mult, o.is_killzone⟩
    | w :: p1 :: _ =>
      ⟨o.has_bar_tag, [(max 2 (pyInt ((w : ℚ) * f))).toNat, p1],
        o.gap_mult, o.is_killzone⟩
    | _ => o
  else o

def scale_pattern_widths (obstacles : List ObstacleSpec) (scale_factor : ℚ) :
    List ObstacleSpec :=
  obstacles.map (scaleObs scale_factor)

/-! ### Sequence generators
    (src/archive/pattern_generator_v3.py lines 179-206 and
     src/generators/obstacle_builders.py lines 60-118) -/
def pattern_generator_v3.ascending_go (stop step : ℤ) : ℕ → ℤ → List ℤ
  | 0, _ => []
  | n + 1, cur => cur :: pattern_generator_v3.ascending_go stop step n (min (cur + step) stop)

/-- ascending_heights(start, end, count): linear ramp with integer floor step,
clamped at the end value. -/
def pattern_generator_v3.ascending_heights (start stop : ℤ) (count : ℕ) : List ℤ :=
  if count = 1 then [start]
  else
    pattern_generator_v3.ascending_go stop
      (max 1 ((stop - start).fdiv (max 1 ((count : ℤ) - 1)))) count start

def pattern_generator_v3.descending_heights (start stop : ℤ) (count : ℕ) : List ℤ :=
  (pattern_generator_v3.ascending_heights stop start count).reverse

/-- wave_heights(min_h, max_h, count) of the archive generator: ascending half
then descending half, exactly count elements. -/
def pattern_generator_v3.wave_heights (min_h max_h : ℤ) (count : ℕ) : List ℤ :=
  pattern_generator_v3.ascending_heights min_h max_h (count / 2) ++
    pattern_generator_v3.descending_heights max_h min_h (count - count / 2)

def pattern_generator_v3.zigzag_go (min_h max_h : ℤ) : ℕ → ℤ → Bool → List ℤ
  | 0, _, _ => []
  | n + 1, cur, up =>
    cur ::
      (if up then
        pattern_generator_v3.zigzag_go min_h max_h n (cur + 1)
          (if max_h ≤ cur + 1 then false else true)
      else
        pattern_generator_v3.zigzag_go min_h max_h n (cur - 1)
          (if cur - 1 ≤ min_h then true else false))

def pattern_generator_v3.zigzag_heights (min_h max_h : ℤ) (count : ℕ) : List ℤ :=
  pattern_generator_v3.zigzag_go min_h max_h count min_h true

/-- The ascending comprehension of obstacle_builders.wave_heights:
[low + int((high - low) * i / mid) for i in range(mid)] with mid = count // 2
(the division is float division, truncated by int()). -/
def obstacle_builders.wave_ascending (count : ℕ) (low high : ℤ) : List ℤ :=
  (List.range (count / 2)).map
    (fun (i : ℕ) => low + pyInt ((((high - low) * (i : ℤ)) : ℚ) / ((count / 2 : ℕ) : ℚ)))

/-- wave_heights(count, low, high) of obstacle_builders: ascending half, its
reverse, then truncation to count elements. -/
def obstacle_builders.wave_heights (count : ℕ) (low high : ℤ) : List ℤ :=
  (obstacle_builders.wave_ascending count low high ++
    (obstacle_builders.wave_ascending count low high).reverse).take count

def obstacle_builders.alternating_go (low high : ℤ) : ℕ → ℤ → List ℤ
  | 0, _ => []
  | n + 1, cur =>
    cur :: obstacle_builders.alternating_go low high n (if cur = low then high else low)

def obstacle_builders.alternating_heights (count : ℕ) (low high : ℤ) : List ℤ :=
  obstacle_builders.alternating_go low high count low

def obstacle_builders.stepped_heights (count : ℕ) (low high : ℤ) : List ℤ :=
  (List.range count).map
    (fun i => if i % 6 = 0 ∧ 0 < i then low else low + min ((i % 6 : ℕ) : ℤ) (high - low))


/-! ### Evaluation helpers for the derived constants -/
lemma pyInt_eval {q : ℚ} {n : ℤ} (h0 : (0 : ℚ) ≤ q) (h1 : (n : ℚ) ≤ q)
    (h2 : q < n + 1) : pyInt q = n := by
  unfold pyInt
  rw [if_pos h0]
  exact Int.floor_eq_iff.mpr ⟨h1, h2⟩

lemma max_jump_height_eq : max_jump_height = 1125 / 8 := by
  unfold max_jump_height JUMP_POWER GRAVITY
  norm_num

lemma MAX_OBSTACLE_HEIGHT_eq : MAX_OBSTACLE_HEIGHT = 98 := by
  unfold MAX_OBSTACLE_HEIGHT
  rw [max_jump_height_eq]
  exact pyInt_eval (by norm_num) (by norm_num) (by norm_num)

lemma time_to_peak_eq : time_to_peak = 75 / 4 := by
  unfold time_to_peak JUMP_POWER GRAVITY
  norm_num

lemma MAX_JUMP_DISTANCE_eq : MAX_JUMP_DISTANCE = 225 := by
  unfold MAX_JUMP_DISTANCE total_air_time PLAYER_SPEED
  rw [time_to_peak_eq]
  exact pyInt_eval (by norm_num) (by norm_num) (by norm_num)

lemma MIN_SAFE_GAP_eq : MIN_SAFE_GAP = 60 := by
  unfold MIN_SAFE_GAP PLAYER_SPEED
  exact pyInt_eval (by norm_num) (by norm_num) (by norm_num)

lemma MAX_FORWARD_JUMP_HEIGHT_eq : MAX_FORWARD_JUMP_HEIGHT = 39 := by
  unfold MAX_FORWARD_JUMP_HEIGHT
  rw [MAX_OBSTACLE_HEIGHT_eq]
  exact pyInt_eval (by norm_num) (by norm_num) (by norm_num)

lemma MAX_CLIMB_HEIGHT_eq : MAX_CLIMB_HEIGHT = 58 := by
  unfold MAX_CLIMB_HEIGHT
  rw [MAX_OBSTACLE_HEIGHT_eq]
  exact pyInt_eval (by norm_num) (by norm_num) (by norm_num)

/-- Claim C3: for gravity=0.8, jump_power=-15, player_speed=6 the derived
physics constants are exactly max_obstacle_height=98px, max_jump_distance=225px,
min_safe_gap=60px, max_forward_jump_height=39px and max_climb_height=58px,
computed by the stated formulas with truncation to integer pixels. -/
theorem claim3_constants :
    MAX_OBSTACLE_HEIGHT = 98 ∧ MAX_JUMP_DISTANCE = 225 ∧ MIN_SAFE_GAP = 60 ∧
      MAX_FORWARD_JUMP_HEIGHT = 39 ∧ MAX_CLIMB_HEIGHT = 58 :=
  ⟨MAX_OBSTACLE_HEIGHT_eq, MAX_JUMP_DISTANCE_eq, MIN_SAFE_GAP_eq,
    MAX_FORWARD_JUMP_HEIGHT_eq, MAX_CLIMB_HEIGHT_eq⟩

lemma trajX_succ (sx : ℚ) (k : ℕ) : trajX sx k + PLAYER_SPEED = trajX sx (k + 1) := by
  unfold trajX
  push_cast
  ring

lemma vel_succ (k : ℕ) : vel k + GRAVITY = vel (k + 1) := by
  unfold vel
  push_cast
  ring

lemma trajAux_characterize (sx sy : ℚ) :
    ∀ (n k : ℕ),
      trajAux sx (trajX sx k) (trajY sy k) (vel k) n =
        (List.range (runLen sx sy k n)).map
          (fun j => (trajX sx (k + j), trajY sy (k + j))) := by
  intro n
  induction n with
  | zero => intro k; simp [trajAux, runLen]
  | succ n ih =>
    intro k
    have hy : trajY sy k + vel k = trajY sy (k + 1) := rfl
    by_cases hstop : stopAt sx sy (k + 1)
    · have hc : (GROUND_Y : ℚ) ≤ trajY sy k + vel k ∨
          sx + (MAX_JUMP_DISTANCE : ℚ) + 100 < trajX sx k + PLAYER_SPEED := by
        rw [hy, trajX_succ]
        exact hstop
      rw [trajAux, if_pos hc, runLen, if_pos hstop]
      rfl
    · have hc : ¬((GROUND_Y : ℚ) ≤ trajY sy k + vel k ∨
          sx + (MAX_JUMP_DISTANCE : ℚ) + 100 < trajX sx k + PLAYER_SPEED) := by
        rw [hy, trajX_succ]
        exact hstop
      rw [trajAux, if_neg hc, runLen, if_neg hstop]
      rw [trajX_succ, hy, vel_succ, ih (k + 1)]
      rw [Nat.add_comm 1 (runLen sx sy (k + 1) n), List.range_succ_eq_map]
      simp only [List.map_cons, List.map_map, Nat.add_zero]
      congr 1
      apply List.map_congr_left
      intro j _
      simp only [Function.comp_apply]
      congr 2 <;> omega

lemma calculate_eq (sx sy : ℚ) :
    calculate_jump_trajectory sx sy =
      (List.range (runLen sx sy 0 50)).map (fun j => (trajX sx j, trajY sy j)) := by
  have h := trajAux_characterize sx sy 50 0
  have h0x : trajX sx 0 = sx := by simp [trajX]
  have h0v : vel 0 = JUMP_POWER := by simp [vel]
  have h0y : trajY sy 0 = sy := rfl
  rw [h0x, h0y, h0v] at h
  rw [calculate_jump_trajectory, h]
  simp

lemma runLen_le (sx sy : ℚ) : ∀ (n k : ℕ), runLen sx sy k n ≤ n := by
  intro n
  induction n with
  | zero => intro k; simp [runLen]
  | succ n ih =>
    intro k
    rw [runLen]
    split
    · omega
    · have := ih (k + 1)
      omega

lemma runLen_pos (sx sy : ℚ) (n k : ℕ) : 1 ≤ runLen sx sy k (n + 1) := by
  rw [runLen]
  split <;> omega

lemma runLen_lt_iff (sx sy : ℚ) :
    ∀ (n k : ℕ), runLen sx sy k n < n ↔ ∃ j, k < j ∧ j < k + n ∧ stopAt sx sy j := by
  intro n
  induction n with
  | zero =>
    intro k
    constructor
    · omega
    · rintro ⟨j, h1, h2, _⟩; omega
  | succ n ih =>
    intro k
    rw [runLen]
    by_cases hstop : stopAt sx sy (k + 1)
    · rw [if_pos hstop]
      constructor
      · intro h
        exact ⟨k + 1, by omega, by omega, hstop⟩
      · rintro ⟨j, h1, h2, _⟩
        omega
    · rw [if_neg hstop]
      constructor
      · intro h
        obtain ⟨j, h1, h2, h3⟩ := (ih (k + 1)).mp (by omega)
        exact ⟨j, by omega, by omega, h3⟩
      · rintro ⟨j, h1, h2, h3⟩
        have hj : k + 1 < j := by
          rcases Nat.lt_or_ge (k + 1) j with h | h
          · exact h
          · have : j = k + 1 := by omega
            rw [this] at h3
            exact absurd h3 hstop
        have := (ih (k + 1)).mpr ⟨j, hj, by omega, h3⟩
        omega

lemma traj_length (sx sy : ℚ) :
    (calculate_jump_trajectory sx sy).length = runLen sx sy 0 50 := by
  rw [calculate_eq]
  simp

lemma traj_getElem? (sx sy : ℚ) (j : ℕ) :
    (calculate_jump_trajectory sx sy)[j]? =
      if j < runLen sx sy 0 50 then some (trajX sx j, trajY sy j) else none := by
  rw [calculate_eq]
  by_cases h : j < runLen sx sy 0 50
  · rw [if_pos h]
    rw [List.getElem?_map, List.getElem?_range h]
    rfl
  · rw [if_neg h]
    rw [List.getElem?_map, List.getElem?_eq_none (by simpa using Nat.le_of_not_lt h)]
    rfl

lemma traj_head? (sx sy : ℚ) :
    (calculate_jump_trajectory sx sy).head? = some (sx, sy) := by
  have h0 := traj_getElem? sx sy 0
  rw [if_pos (show 0 < runLen sx sy 0 50 from runLen_pos sx sy 49 0)] at h0
  have hx : trajX sx 0 = sx := by simp [trajX]
  cases hl : calculate_jump_trajectory sx sy with
  | nil => rw [hl] at h0; simp at h0
  | cons a t =>
    rw [hl] at h0
    simp only [List.getElem?_cons_zero, Option.some.injEq] at h0
    rw [List.head?_cons, h0, hx]
    rfl

/-- Claim C4: the simulated jump trajectory is a finite sequence of at most 50
points starting at (start_x, start_y); successive points obey
x' = x + player_speed and y' = y + velocity_y with velocity_y starting at
jump_power and increasing by gravity each step; the sequence stops before 50
points exactly when a subsequent ideal point reaches the ground plane
(y >= 600) or flies past start_x + max_jump_distance + 100px. -/
theorem claim4_trajectory (sx sy : ℚ) :
    (calculate_jump_trajectory sx sy).length ≤ 50 ∧
      (calculate_jump_trajectory sx sy).head? = some (sx, sy) ∧
      (∀ (j : ℕ) (p q : ℚ × ℚ), (calculate_jump_trajectory sx sy)[j]? = some p →
        (calculate_jump_trajectory sx sy)[j + 1]? = some q →
        q.1 = p.1 + PLAYER_SPEED ∧ q.2 = p.2 + (JUMP_POWER + GRAVITY * j)) ∧
      ((calculate_jump_trajectory sx sy).length < 50 ↔
        ∃ j, 1 ≤ j ∧ j < 50 ∧ stopAt sx sy j) := by
  refine ⟨?_, traj_head? sx sy, ?_, ?_⟩
  · rw [traj_length]
    exact runLen_le sx sy 50 0
  · intro j p q hp hq
    rw [traj_getElem?] at hp hq
    by_cases hj1 : j + 1 < runLen sx sy 0 50
    · have hj : j < runLen sx sy 0 50 := by omega
      rw [if_pos hj] at hp
      rw [if_pos hj1] at hq
      injection hp with hp
      injection hq with hq
      rw [← hp, ← hq]
      constructor
      · exact (trajX_succ sx j).symm
      · rfl
    · rw [if_neg hj1] at hq
      cases hq
  · rw [traj_length]
    rw [runLen_lt_iff sx sy 50 0]
    constructor
    · rintro ⟨j, h1, h2, h3⟩
      exact ⟨j, by omega, by omega, h3⟩
    · rintro ⟨j, h1, h2, h3⟩
      exact ⟨j, by omega, by omega, h3⟩

/-- Witness for C4 at the concrete takeoff point (0, 570). -/
theorem claim4_witness :
    (calculate_jump_trajectory 0 570).length ≤ 50 ∧
      (calculate_jump_trajectory 0 570).head? = some (0, 570) ∧
      (∀ (j : ℕ) (p q : ℚ × ℚ), (calculate_jump_trajectory 0 570)[j]? = some p →
        (calculate_jump_trajectory 0 570)[j + 1]? = some q →
        q.1 = p.1 + PLAYER_SPEED ∧ q.2 = p.2 + (JUMP_POWER + GRAVITY * j)) ∧
      ((calculate_jump_trajectory 0 570).length < 50 ↔
        ∃ j, 1 ≤ j ∧ j < 50 ∧ stopAt 0 570 j) :=
  claim4_trajectory 0 570

/-! ### The landing-point characterisation of can_reach_platform -/
lemma intersects_iff (traj : List (ℚ × ℚ)) (px ptop pw : ℚ) :
    platform_intersects_trajectory traj px ptop pw = true ↔
      ∃ p ∈ traj, (px ≤ p.1 + PLAYER_WIDTH ∧ p.1 ≤ px + pw) ∧
        ptop - 5 ≤ p.2 + PLAYER_HEIGHT := by
  unfold platform_intersects_trajectory
  rw [List.any_eq_true]
  constructor
  · rintro ⟨p, hp, hd⟩
    exact ⟨p, hp, of_decide_eq_true hd⟩
  · rintro ⟨p, hp, hd⟩
    exact ⟨p, hp, decide_eq_true hd⟩

lemma can_reach_iff (prev next_ : Platform) :
    (can_reach_platform prev next_).1 = true ↔
      ∃ p ∈ calculate_jump_trajectory ((prev.x + prev.width : ℤ) : ℚ)
          (prev.y_top : ℚ),
        ((next_.x : ℚ) ≤ p.1 + PLAYER_WIDTH ∧
          p.1 ≤ (next_.x : ℚ) + (next_.width : ℚ)) ∧
        (next_.y_top : ℚ) - 5 ≤ p.2 + PLAYER_HEIGHT := by
  unfold can_reach_platform
  rw [← intersects_iff]
  by_cases h : platform_intersects_trajectory
      (calculate_jump_trajectory ((prev.x + prev.width : ℤ) : ℚ) (prev.y_top : ℚ))
      (next_.x : ℚ) (next_.y_top : ℚ) (next_.width : ℚ) = true
  · rw [if_pos h]
    simpa using h
  · rw [if_neg h]
    split
    · simpa using h
    · simpa using h

/-- Claim C2: can_reach_platform(prev, next) returns True iff some trajectory
point simulated from prev's right edge and top has a horizontal player span
[x, x+40] overlapping next's span [next.x, next.x+next.width] while the player
bottom y+40 is at or below 5px above next's landing surface
(y + 40 >= next.y_top - 5). -/
theorem claim2_can_reach_iff (prev next_ : Platform) :
    (can_reach_platform prev next_).1 = true ↔
      ∃ p ∈ calculate_jump_trajectory ((prev.x + prev.width : ℤ) : ℚ)
          (prev.y_top : ℚ),
        ((next_.x : ℚ) ≤ p.1 + PLAYER_WIDTH ∧
          p.1 ≤ (next_.x : ℚ) + (next_.width : ℚ)) ∧
        (next_.y_top : ℚ) - 5 ≤ p.2 + PLAYER_HEIGHT :=
  can_reach_iff prev next_

/-! ### Concrete-evaluation toolkit -/
lemma pyInt_gap_0 : pyInt 0 = 0 :=
  pyInt_eval (by norm_num) (by norm_num) (by norm_num)

lemma pyInt_gap_half : pyInt (0.5 * 100) = 50 :=
  pyInt_eval (by norm_num) (by norm_num) (by norm_num)

lemma pyInt_gap_1 : pyInt 100 = 100 :=
  pyInt_eval (by norm_num) (by norm_num) (by norm_num)

lemma pyInt_gap_15 : pyInt ((1.5 : ℚ) * 100) = 150 :=
  pyInt_eval (by norm_num) (by norm_num) (by norm_num)

lemma pyInt_gap_9 : pyInt ((9 : ℚ) * 100) = 900 :=
  pyInt_eval (by norm_num) (by norm_num) (by norm_num)

lemma trajY_closed (sy : ℚ) :
    ∀ k : ℕ, trajY sy k = sy + JUMP_POWER * k + GRAVITY * ((k : ℚ) * ((k : ℚ) - 1)) / 2 := by
  intro k
  induction k with
  | zero => simp [trajY]
  | succ k ih =>
    show trajY sy k + vel k = _
    rw [ih]
    unfold vel
    push_cast
    ring

lemma traj_point_mem (sx sy : ℚ) (k : ℕ) (hk : k < runLen sx sy 0 50) :
    (trajX sx k, trajY sy k) ∈ calculate_jump_trajectory sx sy := by
  rw [calculate_eq]
  exact List.mem_map.mpr ⟨k, List.mem_range.mpr hk, rfl⟩

lemma runLen_ge (sx sy : ℚ) :
    ∀ (m n k : ℕ), m < n → (∀ j, k < j → j ≤ k + m → ¬ stopAt sx sy j) →
      m < runLen sx sy k n := by
  intro m
  induction m with
  | zero =>
    intro n k hn _
    match n, hn with
    | n + 1, _ => exact runLen_pos sx sy n k
  | succ m ih =>
    intro n k hn hno
    match n, hn with
    | n + 1, _ =>
      have hs : ¬ stopAt sx sy (k + 1) := hno (k + 1) (by omega) (by omega)
      rw [runLen, if_neg hs]
      have := ih n (k + 1) (by omega) (fun j hj1 hj2 => hno j (by omega) (by omega))
      omega

lemma traj_all_points (sx sy : ℚ) (p : ℚ × ℚ)
    (hp : p ∈ calculate_jump_trajectory sx sy) :
    ∃ j : ℕ, j < 50 ∧ p = (trajX sx j, trajY sy j) := by
  rw [calculate_eq] at hp
  obtain ⟨j, hj, hjp⟩ := List.mem_map.mp hp
  exact ⟨j, by have h1 := List.mem_range.mp hj; have h2 := runLen_le sx sy 50 0; omega,
    hjp.symm⟩

/-! ### Walk-evaluation helpers for two-obstacle patterns -/
lemma can_reach_of_landing (prev next_ : Platform) (k : ℕ)
    (hk : k < runLen ((prev.x + prev.width : ℤ) : ℚ) ((prev.y_top : ℤ) : ℚ) 0 50)
    (h1 : (next_.x : ℚ) ≤ trajX ((prev.x + prev.width : ℤ) : ℚ) k + PLAYER_WIDTH)
    (h2 : trajX ((prev.x + prev.width : ℤ) : ℚ) k ≤ (next_.x : ℚ) + (next_.width : ℚ))
    (h3 : (next_.y_top : ℚ) - 5 ≤ trajY ((prev.y_top : ℤ) : ℚ) k + PLAYER_HEIGHT) :
    (can_reach_platform prev next_).1 = true := by
  rw [can_reach_iff]
  exact ⟨_, traj_point_mem _ _ k hk, ⟨h1, h2⟩, h3⟩

lemma pe_two (p0 p1 : Platform) (l : List ObstacleSpec)
    (hb : buildPlatforms l = [p0, p1])
    (hkz0 : p0.is_killzone = false) (hkz1 : p1.is_killzone = false)
    (hcr : (can_reach_platform p0 p1).1 = true) :
    (pe_validate l).1 = true := by
  unfold pe_validate
  rw [hb]
  rcases hc : can_reach_platform p0 p1 with ⟨b, m⟩
  rw [hc] at hcr
  simp only at hcr
  subst hcr
  simp [validateWalk, hkz0, hkz1, hc]

lemma pe_two_reject (p0 p1 : Platform) (l : List ObstacleSpec)
    (hb : buildPlatforms l = [p0, p1])
    (hkz0 : p0.is_killzone = false) (hkz1 : p1.is_killzone = false)
    (hcr : (can_reach_platform p0 p1).1 = false) :
    (pe_validate l).1 = false := by
  unfold pe_validate
  rw [hb]
  rcases hc : can_reach_platform p0 p1 with ⟨b, m⟩
  rw [hc] at hcr
  simp only at hcr
  subst hcr
  simp [validateWalk, hkz0, hkz1, hc]

lemma pe_two_full (p0 p1 : Platform) (l : List ObstacleSpec)
    (hb : buildPlatforms l = [p0, p1])
    (hkz0 : p0.is_killzone = false) (hkz1 : p1.is_killzone = false)
    (hcr : (can_reach_platform p0 p1).1 = true)
    (hdip : ((calculate_jump_trajectory ((p0.x + p0.width : ℤ) : ℚ) (p0.y_top : ℚ)).any
      fun pt => decide ((GROUND_Y : ℚ) ≤ pt.2 + PLAYER_HEIGHT)) = false) :
    pe_validate l = (true, PeMsg.patternValid, false) := by
  unfold pe_validate
  rw [hb]
  rcases hc : can_reach_platform p0 p1 with ⟨b, m⟩
  rw [hc] at hcr
  simp only at hcr
  subst hcr
  push_cast at hdip
  simp [validateWalk, hkz0, hkz1, hc, hdip]

lemma trajY_bound (sy : ℚ) (j : ℕ) (hj : j < 50) : trajY sy j ≤ sy + 205.8 := by
  rw [trajY_closed]
  unfold JUMP_POWER GRAVITY
  have hc0 : (0 : ℚ) ≤ (j : ℚ) := Nat.cast_nonneg j
  have hc49 : (j : ℚ) ≤ 49 := by exact_mod_cast Nat.lt_succ_iff.mp hj
  nlinarith [mul_nonneg (sub_nonneg.mpr hc49) hc0]

/-! ### Concrete evaluations -/
lemma build_scenarioA :
    buildPlatforms scenarioA = [⟨800, 570, 60, false⟩, ⟨860, 510, 60, false⟩] := by
  simp [buildPlatforms, buildAux, scenarioA, resolveWH, gapAfter, pyInt_gap_0,
    pyInt_gap_15, GROUND_Y]

lemma build_scenarioA3 :
    buildPlatforms scenarioA3 = [⟨800, 570, 90, false⟩, ⟨890, 510, 90, false⟩] := by
  simp [buildPlatforms, buildAux, scenarioA3, resolveWH, gapAfter, pyInt_gap_0,
    pyInt_gap_15, GROUND_Y]

lemma build_narrowPattern :
    buildPlatforms narrowPattern = [⟨800, 570, 60, false⟩, ⟨910, 570, 30, false⟩] := by
  simp [buildPlatforms, buildAux, narrowPattern, resolveWH, gapAfter, pyInt_gap_half,
    pyInt_gap_15, GROUND_Y]

lemma build_floatGood :
    buildPlatforms floatGood = [⟨800, 300, 60, false⟩, ⟨910, 300, 60, false⟩] := by
  simp [buildPlatforms, buildAux, floatGood, resolveWH, gapAfter, pyInt_gap_half,
    pyInt_gap_15, GROUND_Y]

lemma build_floatFar :
    buildPlatforms floatFar = [⟨800, 300, 60, false⟩, ⟨1760, 300, 60, false⟩] := by
  simp [buildPlatforms, buildAux, floatFar, resolveWH, gapAfter, pyInt_gap_9,
    pyInt_gap_15, GROUND_Y]

lemma build_floatW :
    buildPlatforms floatW = [⟨800, 300, 60, false⟩, ⟨960, 300, 60, false⟩] := by
  simp [buildPlatforms, buildAux, floatW, resolveWH, gapAfter, pyInt_gap_1, GROUND_Y]

lemma reach_scenarioA :
    (can_reach_platform ⟨800, 570, 60, false⟩ ⟨860, 510, 60, false⟩).1 = true := by
  apply can_reach_of_landing _ _ 0
  · exact runLen_pos _ _ 49 0
  · show (860 : ℚ) ≤ trajX ((800 + 60 : ℤ) : ℚ) 0 + PLAYER_WIDTH
    norm_num [trajX, PLAYER_WIDTH]
  · show trajX ((800 + 60 : ℤ) : ℚ) 0 ≤ (860 : ℚ) + (60 : ℚ)
    norm_num [trajX]
  · show ((510 : ℤ) : ℚ) - 5 ≤ trajY ((570 : ℤ) : ℚ) 0 + PLAYER_HEIGHT
    norm_num [trajY, PLAYER_HEIGHT]

lemma reach_scenarioA3 :
    (can_reach_platform ⟨800, 570, 90, false⟩ ⟨890, 510, 90, false⟩).1 = true := by
  apply can_reach_of_landing _ _ 0
  · exact runLen_pos _ _ 49 0
  · show (890 : ℚ) ≤ trajX ((800 + 90 : ℤ) : ℚ) 0 + PLAYER_WIDTH
    norm_num [trajX, PLAYER_WIDTH]
  · show trajX ((800 + 90 : ℤ) : ℚ) 0 ≤ (890 : ℚ) + (90 : ℚ)
    norm_num [trajX]
  · show ((510 : ℤ) : ℚ) - 5 ≤ trajY ((570 : ℤ) : ℚ) 0 + PLAYER_HEIGHT
    norm_num [trajY, PLAYER_HEIGHT]

lemma not_stopAt {sx sy : ℚ} {j : ℕ} (h1 : trajY sy j < (GROUND_Y : ℚ))
    (h2 : trajX sx j ≤ sx + (MAX_JUMP_DISTANCE : ℚ) + 100) : ¬ stopAt sx sy j := by
  unfold stopAt
  push_neg
  exact ⟨h1, h2⟩

lemma reach_narrowPattern :
    (can_reach_platform ⟨800, 570, 60, false⟩ ⟨910, 570, 30, false⟩).1 = true := by
  apply can_reach_of_landing _ _ 2
  · apply runLen_ge _ _ 2 50 0 (by omega)
    intro j hj1 hj2
    interval_cases j
    · exact not_stopAt
        (by norm_num [trajY_closed, JUMP_POWER, GRAVITY, GROUND_Y])
        (by norm_num [trajX, PLAYER_SPEED, MAX_JUMP_DISTANCE_eq])
    · exact not_stopAt
        (by norm_num [trajY_closed, JUMP_POWER, GRAVITY, GROUND_Y])
        (by norm_num [trajX, PLAYER_SPEED, MAX_JUMP_DISTANCE_eq])
  · show (910 : ℚ) ≤ trajX ((800 + 60 : ℤ) : ℚ) 2 + PLAYER_WIDTH
    norm_num [trajX, PLAYER_SPEED, PLAYER_WIDTH]
  · show trajX ((800 + 60 : ℤ) : ℚ) 2 ≤ (910 : ℚ) + (30 : ℚ)
    norm_num [trajX, PLAYER_SPEED]
  · show ((570 : ℤ) : ℚ) - 5 ≤ trajY ((570 : ℤ) : ℚ) 2 + PLAYER_HEIGHT
    norm_num [trajY_closed, JUMP_POWER, GRAVITY, PLAYER_HEIGHT]

lemma reach_floatGood :
    (can_reach_platform ⟨800, 300, 60, false⟩ ⟨910, 300, 60, false⟩).1 = true := by
  apply can_reach_of_landing _ _ 2
  · apply runLen_ge _ _ 2 50 0 (by omega)
    intro j hj1 hj2
    interval_cases j
    · exact not_stopAt
        (by norm_num [trajY_closed, JUMP_POWER, GRAVITY, GROUND_Y])
        (by norm_num [trajX, PLAYER_SPEED, MAX_JUMP_DISTANCE_eq])
    · exact not_stopAt
        (by norm_num [trajY_closed, JUMP_POWER, GRAVITY, GROUND_Y])
        (by norm_num [trajX, PLAYER_SPEED, MAX_JUMP_DISTANCE_eq])
  · show (910 : ℚ) ≤ trajX ((800 + 60 : ℤ) : ℚ) 2 + PLAYER_WIDTH
    norm_num [trajX, PLAYER_SPEED, PLAYER_WIDTH]
  · show trajX ((800 + 60 : ℤ) : ℚ) 2 ≤ (910 : ℚ) + (60 : ℚ)
    norm_num [trajX, PLAYER_SPEED]
  · show ((300 : ℤ) : ℚ) - 5 ≤ trajY ((300 : ℤ) : ℚ) 2 + PLAYER_HEIGHT
    norm_num [trajY_closed, JUMP_POWER, GRAVITY, PLAYER_HEIGHT]

lemma reject_floatFar :
    (can_reach_platform ⟨800, 300, 60, false⟩ ⟨1760, 300, 60, false⟩).1 = false := by
  rw [← Bool.not_eq_true, can_reach_iff]
  rintro ⟨p, hp, ⟨hh1, _⟩, _⟩
  obtain ⟨j, hj, rfl⟩ := traj_all_points _ _ p hp
  have hj49 : (j : ℚ) ≤ 49 := by exact_mod_cast Nat.lt_succ_iff.mp hj
  rw [trajX] at hh1
  push_cast at hh1
  rw [PLAYER_SPEED, PLAYER_WIDTH] at hh1
  linarith

lemma no_dip_300 (sx : ℚ) :
    ((calculate_jump_trajectory sx ((300 : ℤ) : ℚ)).any
      fun pt => decide ((GROUND_Y : ℚ) ≤ pt.2 + PLAYER_HEIGHT)) = false := by
  rw [List.any_eq_false]
  intro p hp
  obtain ⟨j, hj, rfl⟩ := traj_all_points _ _ p hp
  simp only [decide_eq_true_eq]
  have hb := trajY_bound ((300 : ℤ) : ℚ) j hj
  rw [GROUND_Y, PLAYER_HEIGHT]
  push_cast
  push_cast at hb
  linarith

lemma v3_scenarioA : v3_validate scenarioA = (false, V3Msg.stackClimb 1 60) := by
  simp [v3_validate, scenarioA, resolveV3Obs, gapAfter, pyInt_gap_0, pyInt_gap_15,
    v3_walk, checkTransitionV3, MAX_OBSTACLE_HEIGHT_eq, MAX_CLIMB_HEIGHT_eq,
    MAX_JUMP_DISTANCE_eq, MIN_SAFE_GAP_eq, MAX_FORWARD_JUMP_HEIGHT_eq, GROUND_Y]

lemma v3_scenarioA3 : v3_validate scenarioA3 = (false, V3Msg.stackClimb 1 60) := by
  simp [v3_validate, scenarioA3, resolveV3Obs, gapAfter, pyInt_gap_0, pyInt_gap_15,
    v3_walk, checkTransitionV3, MAX_OBSTACLE_HEIGHT_eq, MAX_CLIMB_HEIGHT_eq,
    MAX_JUMP_DISTANCE_eq, MIN_SAFE_GAP_eq, MAX_FORWARD_JUMP_HEIGHT_eq, GROUND_Y]

lemma v3_upJump : v3_validate upJumpPattern = (true, V3Msg.patternValid) := by
  simp [v3_validate, upJumpPattern, resolveV3Obs, gapAfter, pyInt_gap_1, pyInt_gap_15,
    v3_walk, checkTransitionV3, MAX_OBSTACLE_HEIGHT_eq, MAX_CLIMB_HEIGHT_eq,
    MAX_JUMP_DISTANCE_eq, MIN_SAFE_GAP_eq, MAX_FORWARD_JUMP_HEIGHT_eq, GROUND_Y]

/-- Counterexample for C5: the trajectory-based validator
(physics_engine.validate_pattern) accepts the very pattern of Scenario A
(30px bar, zero gap, 90px bar), so "validation returns is_valid=false" fails
for it. -/
theorem claim5_counterexample : (pe_validate scenarioA).1 = true :=
  pe_two _ _ _ build_scenarioA rfl rfl reach_scenarioA

/-- Claim C5 (amended): for the stacked 30px→90px pattern the ANALYTIC
validator (archive pattern_generator_v3.validate_pattern) returns
is_valid=false with failure index 1 because the height delta 60px exceeds
max_climb_height 58px; the trajectory-based validator instead accepts this
pattern. -/
theorem claim5_amended : v3_validate scenarioA = (false, V3Msg.stackClimb 1 60) :=
  v3_scenarioA

/-- Counterexample for C1: on the stacked 60px climb (90px-wide bars) the
analytic validator rejects while the trajectory validator accepts, so the two
verdicts differ. -/
theorem claim1_counterexample :
    (v3_validate scenarioA3).1 = false ∧ (pe_validate scenarioA3).1 = true :=
  ⟨by rw [v3_scenarioA3], pe_two _ _ _ build_scenarioA3 rfl rfl reach_scenarioA3⟩

/-- Claim C1 (amended): the two validators are NOT equivalent (they disagree
on stacked climbs above max_climb_height); they do agree on every
single-obstacle pattern whose resolved height is at most max_obstacle_height,
where both accept. -/
theorem claim1_amended (o : ObstacleSpec)
    (h : (resolveV3Obs o).height ≤ MAX_OBSTACLE_HEIGHT) :
    (v3_validate [o]).1 = true ∧ (pe_validate [o]).1 = true := by
  constructor
  · unfold v3_validate
    simp only [List.map_cons, List.map_nil]
    rw [if_neg (not_lt.mpr h)]
    rfl
  · unfold pe_validate buildPlatforms buildAux
    rfl

/-- Witness for C1 (amended) at a 30px-high ground bar. -/
theorem claim1_witness :
    (resolveV3Obs ⟨true, [2, 1], 1.5, false⟩).height ≤ MAX_OBSTACLE_HEIGHT ∧
      (v3_validate [⟨true, [2, 1], 1.5, false⟩]).1 = true ∧
      (pe_validate [⟨true, [2, 1], 1.5, false⟩]).1 = true := by
  have h : (resolveV3Obs ⟨true, [2, 1], 1.5, false⟩).height ≤ MAX_OBSTACLE_HEIGHT := by
    rw [MAX_OBSTACLE_HEIGHT_eq]
    simp [resolveV3Obs, gapAfter]
  exact ⟨h, claim1_amended _ h⟩

/-- Counterexample for C8: an upward 60px gap jump (gap 100px) passes the
whole analytic validator, so the forward-jump check does NOT reject upward
deltas above 39px.  The conjuncts record the claim-relevant data: the height
delta is +60px across a positive 100px gap while the threshold is 39px. -/
theorem claim8_counterexample :
    v3_validate upJumpPattern = (true, V3Msg.patternValid) ∧
      (resolveV3Obs ⟨true, [2, 3], 1.5, false⟩).height -
        (resolveV3Obs ⟨true, [2, 1], 1, false⟩).height = 60 ∧
      (resolveV3Obs ⟨true, [2, 1], 1, false⟩).gap_after = 100 ∧
      MAX_FORWARD_JUMP_HEIGHT = 39 := by
  refine ⟨v3_upJump, ?_, ?_, MAX_FORWARD_JUMP_HEIGHT_eq⟩
  · simp [resolveV3Obs, gapAfter]
  · simp [resolveV3Obs, gapAfter, pyInt_gap_1]

/-- Claim C8 (amended): in the analytic validator the abs() forward-jump
check fires only in the branch vertical_diff < 0, i.e. when the next obstacle
is LOWER: a gap transition is rejected by this check iff the next obstacle is
lower and the descent exceeds max_forward_jump_height; upward deltas are not
constrained by it. -/
theorem claim8_amended (i : ℕ) (prev cur : RObs) (hg : 0 < prev.gap_after)
    (hgm : prev.gap_after ≤ MAX_JUMP_DISTANCE)
    (hn : ¬(cur.width < 60 ∧ prev.gap_after < MIN_SAFE_GAP)) :
    checkTransitionV3 i prev cur =
      (if cur.height < prev.height ∧
          MAX_FORWARD_JUMP_HEIGHT < prev.height - cur.height
        then some (V3Msg.forwardJump i (prev.height - cur.height))
        else none) := by
  unfold checkTransitionV3
  rw [if_neg (by omega : ¬ prev.gap_after = 0), if_neg (not_lt.mpr hgm), if_neg hn]
  have hv : (GROUND_Y - prev.height) - (GROUND_Y - cur.height) =
      cur.height - prev.height := by ring
  rw [hv]
  by_cases h : cur.height < prev.height ∧
      MAX_FORWARD_JUMP_HEIGHT < prev.height - cur.height
  · have h1 : cur.height - prev.height < 0 := by omega
    have h2 : |cur.height - prev.height| = prev.height - cur.height := by
      rw [abs_of_neg h1]
      ring
    rw [if_pos h, if_pos (by rw [h2]; exact ⟨h1, h.2⟩), h2]
  · rw [if_neg h]
    rw [if_neg]
    rintro ⟨h1, h2⟩
    rw [abs_of_neg h1] at h2
    exact h ⟨by omega, by omega⟩

/-- Witness for C8 (amended): a 60px descent across a 100px gap is rejected
by the forward-jump branch. -/
theorem claim8_witness :
    checkTransitionV3 1 ⟨60, 90, 100, false⟩ ⟨60, 30, 150, false⟩ =
      (if (⟨60, 30, 150, false⟩ : RObs).height < (⟨60, 90, 100, false⟩ : RObs).height ∧
          MAX_FORWARD_JUMP_HEIGHT <
            (⟨60, 90, 100, false⟩ : RObs).height - (⟨60, 30, 150, false⟩ : RObs).height
        then some (V3Msg.forwardJump 1
          ((⟨60, 90, 100, false⟩ : RObs).height - (⟨60, 30, 150, false⟩ : RObs).height))
        else none) :=
  claim8_amended 1 ⟨60, 90, 100, false⟩ ⟨60, 30, 150, false⟩ (by decide)
    (by rw [MAX_JUMP_DISTANCE_eq]; decide)
    (by rintro ⟨h1, _⟩; exact absurd h1 (by decide))

lemma floatingOnly_no_kz (l : List ObstacleSpec) (h : floatingOnly l = true) :
    ∀ o ∈ l, o.is_killzone = false := by
  rw [floatingOnly, List.all_eq_true] at h
  intro o ho
  have := h o ho
  rw [Bool.and_eq_true, Bool.not_eq_true'] at this
  exact this.2

lemma buildAux_kz_false :
    ∀ (l : List ObstacleSpec) (x : ℤ), (∀ o ∈ l, o.is_killzone = false) →
      ∀ p ∈ buildAux x l, p.is_killzone = false := by
  intro l
  induction l with
  | nil => intro x _ p hp; simp [buildAux] at hp
  | cons o rest ih =>
    intro x h p hp
    rw [buildAux] at hp
    rcases List.mem_cons.mp hp with hp | hp
    · rw [hp]
      exact h o (List.mem_cons_self o rest)
    · exact ih _ (fun o' ho' => h o' (List.mem_cons_of_mem o ho')) p hp

lemma walk_touches_false :
    ∀ (rest : List Platform) (i : ℕ) (prev : Platform),
      prev.is_killzone = false → (∀ q ∈ rest, q.is_killzone = false) →
      noDipPlats (prev :: rest) = true →
      (validateWalk i false prev rest).2.2 = false := by
  intro rest
  induction rest with
  | nil => intro i prev _ _ _; rfl
  | cons cur rest ih =>
    intro i prev hkp hkr hnd
    have hkc : cur.is_killzone = false := hkr cur (List.mem_cons_self _ _)
    rw [noDipPlats, Bool.and_eq_true, Bool.not_eq_true'] at hnd
    obtain ⟨hdip, htail⟩ := hnd
    rw [validateWalk, if_neg (by rw [hkc]; simp), if_neg (by rw [hkp]; simp)]
    rcases hc : can_reach_platform prev cur with ⟨b, m⟩
    cases b
    · rw [hdip]
      simp only [Bool.or_false]
    · rw [hdip]
      simp only [Bool.or_false]
      exact ih (i + 1) cur hkc (fun q hq => hkr q (List.mem_cons_of_mem cur hq)) htail

/-- Claim C6 (amended): there is a valid floating-only pattern validating with
is_valid=true and touches_ground=false; and for EVERY floating-only pattern
whose simulated sub-trajectories never dip to ground level the validator
reports touches_ground=false — but such a pattern need not be valid (see the
counterexample), so the flag, not validity, is what the hypothesis buys. -/
theorem claim6_floating :
    ((pe_validate floatGood).1 = true ∧ (pe_validate floatGood).2.2 = false ∧
      floatingOnly floatGood = true) ∧
    ∀ l, floatingOnly l = true → noDip l = true → (pe_validate l).2.2 = false := by
  constructor
  · have hfull := pe_two_full _ _ _ build_floatGood rfl rfl reach_floatGood (no_dip_300 _)
    rw [hfull]
    exact ⟨rfl, rfl, by decide⟩
  · intro l hf hd
    have hkz := floatingOnly_no_kz l hf
    have hkzb := buildAux_kz_false l 800 hkz
    rw [noDip] at hd
    unfold pe_validate
    cases hb : buildPlatforms l with
    | nil => rfl
    | cons p rest =>
      rw [hb] at hd
      rw [buildPlatforms] at hb
      rw [hb] at hkzb
      exact walk_touches_false rest 1 p (hkzb p (List.mem_cons_self _ _))
        (fun q hq => hkzb q (List.mem_cons_of_mem p hq)) hd

/-- Witness for C6 (amended): a floating pattern with a 100px gap; no
sub-trajectory dips, and the validator reports touches_ground=false. -/
theorem claim6_witness :
    floatingOnly floatW = true ∧ noDip floatW = true ∧
      (pe_validate floatW).2.2 = false := by
  have h1 : floatingOnly floatW = true := by decide
  have h2 : noDip floatW = true := by
    rw [noDip, build_floatW]
    show (!((calculate_jump_trajectory ((800 + 60 : ℤ) : ℚ) ((300 : ℤ) : ℚ)).any
        fun pt => decide ((GROUND_Y : ℚ) ≤ pt.2 + PLAYER_HEIGHT)) &&
      noDipPlats [⟨960, 300, 60, false⟩]) = true
    rw [no_dip_300]
    rfl
  exact ⟨h1, h2, claim6_floating.2 floatW h1 h2⟩

/-- Counterexample for C6: floating platforms 900px apart — floating-only and
no sub-trajectory dips, yet validation rejects the pattern, refuting the
"is_valid=true" half of the universal claim. -/
theorem claim6_counterexample :
    floatingOnly floatFar = true ∧ noDip floatFar = true ∧
      (pe_validate floatFar).1 = false := by
  refine ⟨by decide, ?_, pe_two_reject _ _ _ build_floatFar rfl rfl reject_floatFar⟩
  rw [noDip, build_floatFar]
  show (!((calculate_jump_trajectory ((800 + 60 : ℤ) : ℚ) ((300 : ℤ) : ℚ)).any
      fun pt => decide ((GROUND_Y : ℚ) ≤ pt.2 + PLAYER_HEIGHT)) &&
    noDipPlats [⟨1760, 300, 60, false⟩]) = true
  rw [no_dip_300]
  rfl

lemma v3_walk_cons_cons (i : ℕ) (x y : RObs) (rest : List RObs) :
    v3_walk i (x :: y :: rest) =
      match checkTransitionV3 i x y with
      | some m => some m
      | none => v3_walk (i + 1) (y :: rest) := rfl

lemma v3_walk_append (ys : List RObs) :
    ∀ (xs : List RObs) (x : RObs) (i : ℕ) (a : RObs),
      v3_walk i (x :: xs ++ [a]) = none →
      v3_walk i (x :: xs ++ a :: ys) = v3_walk (i + xs.length + 1) (a :: ys) := by
  intro xs
  induction xs with
  | nil =>
    intro x i a hnone
    simp only [List.cons_append, List.nil_append, List.length_nil, Nat.add_zero] at hnone ⊢
    rw [v3_walk_cons_cons] at hnone ⊢
    cases hch : checkTransitionV3 i x a with
    | some m => rw [hch] at hnone; simp at hnone
    | none => rfl
  | cons y xs ih =>
    intro x i a hnone
    simp only [List.cons_append, List.length_cons] at hnone ⊢
    rw [v3_walk_cons_cons] at hnone ⊢
    cases hch : checkTransitionV3 i x y with
    | some m => rw [hch] at hnone; simp at hnone
    | none =>
      rw [hch] at hnone
      have hnone2 : v3_walk (i + 1) (y :: (xs ++ [a])) = none := hnone
      show v3_walk (i + 1) (y :: (xs ++ a :: ys)) = v3_walk (i + (xs.length + 1) + 1) (a :: ys)
      rw [show (i + (xs.length + 1) + 1) = (i + 1) + xs.length + 1 by omega]
      exact ih y (i + 1) a hnone2

lemma check_narrow (i : ℕ) (ra rb : RObs) (h1 : 0 < ra.gap_after)
    (h2 : ra.gap_after < MIN_SAFE_GAP) (h3 : rb.width < 60) :
    checkTransitionV3 i ra rb = some (V3Msg.narrowGap (i - 1) ra.gap_after) := by
  unfold checkTransitionV3
  rw [if_neg (by omega : ¬ ra.gap_after = 0)]
  rw [if_neg (by rw [MAX_JUMP_DISTANCE_eq]; rw [MIN_SAFE_GAP_eq] at h2; omega :
    ¬ MAX_JUMP_DISTANCE < ra.gap_after)]
  rw [if_pos ⟨h3, h2⟩]

lemma v3_validate_cons (l : List ObstacleSpec) (r0 : RObs) (rrest : List RObs)
    (hmap : l.map resolveV3Obs = r0 :: rrest) :
    v3_validate l =
      (if MAX_OBSTACLE_HEIGHT < r0.height then (false, V3Msg.firstTooTall r0.height)
       else
        match v3_walk 1 (r0 :: rrest) with
        | some m => (false, m)
        | none => (true, V3Msg.patternValid)) := by
  unfold v3_validate
  rw [hmap]

lemma v3_valid_parts (l : List ObstacleSpec) (r0 : RObs) (rrest : List RObs)
    (hmap : l.map resolveV3Obs = r0 :: rrest)
    (hval : v3_validate l = (true, V3Msg.patternValid)) :
    ¬ MAX_OBSTACLE_HEIGHT < r0.height ∧ v3_walk 1 (r0 :: rrest) = none := by
  rw [v3_validate_cons l r0 rrest hmap] at hval
  by_cases hh : MAX_OBSTACLE_HEIGHT < r0.height
  · rw [if_pos hh] at hval
    simp at hval
  · rw [if_neg hh] at hval
    refine ⟨hh, ?_⟩
    cases hw : v3_walk 1 (r0 :: rrest) with
    | none => rfl
    | some m => rw [hw] at hval; simp at hval

/-- Claim C7 (amended): in the ANALYTIC validator, an obstacle narrower than
60px preceded by a positive gap below min_safe_gap, with all earlier
transitions valid, yields is_valid=false with the narrow-gap reason (indexed
at the preceding obstacle); the trajectory-based validator has no such check
and can accept such patterns (see the counterexample). -/
theorem claim7_amended (pre : List ObstacleSpec) (a b : ObstacleSpec)
    (suf : List ObstacleSpec)
    (hpre : v3_validate (pre ++ [a]) = (true, V3Msg.patternValid))
    (hg1 : 0 < (resolveV3Obs a).gap_after)
    (hg2 : (resolveV3Obs a).gap_after < MIN_SAFE_GAP)
    (hw : (resolveV3Obs b).width < 60) :
    v3_validate (pre ++ a :: b :: suf) =
      (false, V3Msg.narrowGap pre.length (resolveV3Obs a).gap_after) := by
  cases hp : pre.map resolveV3Obs with
  | nil =>
    have hpre0 : pre = [] := List.map_eq_nil_iff.mp hp
    subst hpre0
    rw [List.nil_append] at hpre ⊢
    obtain ⟨hfirst, _⟩ := v3_valid_parts [a] (resolveV3Obs a) [] (by simp) hpre
    rw [v3_validate_cons (a :: b :: suf) (resolveV3Obs a)
      (resolveV3Obs b :: suf.map resolveV3Obs) (by simp)]
    rw [if_neg hfirst, v3_walk_cons_cons, check_narrow 1 _ _ hg1 hg2 hw]
    rfl
  | cons r0 rpre =>
    have hmap1 : (pre ++ [a]).map resolveV3Obs = r0 :: (rpre ++ [resolveV3Obs a]) := by
      rw [List.map_append, hp]
      simp
    obtain ⟨hfirst, hnone⟩ := v3_valid_parts (pre ++ [a]) r0 _ hmap1 hpre
    have hmap2 : (pre ++ a :: b :: suf).map resolveV3Obs =
        r0 :: (rpre ++ resolveV3Obs a :: resolveV3Obs b :: suf.map resolveV3Obs) := by
      rw [List.map_append, hp]
      simp
    have hlen : pre.length = rpre.length + 1 := by
      have := congrArg List.length hp
      simpa using this
    rw [v3_validate_cons _ r0 _ hmap2, if_neg hfirst]
    rw [show r0 :: (rpre ++ resolveV3Obs a :: resolveV3Obs b :: suf.map resolveV3Obs) =
      r0 :: rpre ++ resolveV3Obs a :: (resolveV3Obs b :: suf.map resolveV3Obs) from rfl]
    rw [v3_walk_append _ rpre r0 1 (resolveV3Obs a) hnone]
    rw [v3_walk_cons_cons, check_narrow (1 + rpre.length + 1) _ _ hg1 hg2 hw]
    have hidx : 1 + rpre.length + 1 - 1 = pre.length := by omega
    rw [hidx]

/-- Counterexample for C7: the trajectory-based validator accepts the
Scenario C pattern (30px-wide bar behind a 50px gap), so "validation returns
is_valid=false" fails for physics_engine.validate_pattern.  The other
conjuncts record that the pattern has the claim's shape: target width 30px,
preceding gap 50px. -/
theorem claim7_counterexample :
    (pe_validate narrowPattern).1 = true ∧
      (resolveWH ([1, 1] : List ℕ)).1 = 30 ∧
      gapAfter ⟨true, [2, 1], 0.5, false⟩ = 50 := by
  refine ⟨pe_two _ _ _ build_narrowPattern rfl rfl reach_narrowPattern, ?_, ?_⟩
  · simp [resolveWH]
  · simp [gapAfter, pyInt_gap_half]

/-- Witness for C7 (amended) on the Scenario C pattern itself. -/
theorem claim7_witness :
    v3_validate ([] ++ (⟨true, [2, 1], 0.5, false⟩ : ObstacleSpec) ::
        (⟨true, [1, 1], 1.5, false⟩ : ObstacleSpec) :: []) =
      (false, V3Msg.narrowGap (List.length ([] : List ObstacleSpec))
        (resolveV3Obs ⟨true, [2, 1], 0.5, false⟩).gap_after) := by
  apply claim7_amended
  · simp [v3_validate, resolveV3Obs, gapAfter, pyInt_gap_half,
      MAX_OBSTACLE_HEIGHT_eq, v3_walk]
  · simp [resolveV3Obs, gapAfter, pyInt_gap_half]
  · rw [MIN_SAFE_GAP_eq]
    simp [resolveV3Obs, gapAfter, pyInt_gap_half]
  · simp [resolveV3Obs, gapAfter]

lemma pyInt_w_ge (w : ℕ) (f : ℚ) (hf : 1 ≤ f) : (w : ℤ) ≤ pyInt ((w : ℚ) * f) := by
  have h0 : (0 : ℚ) ≤ (w : ℚ) * f := by positivity
  unfold pyInt
  rw [if_pos h0]
  apply Int.le_floor.mpr
  push_cast
  nlinarith [Nat.cast_nonneg (α := ℚ) w]

lemma w_le_scaled (w : ℕ) (f : ℚ) (hf : 1 ≤ f) :
    (w : ℤ) * 30 ≤ ((max 2 (pyInt ((w : ℚ) * f))).toNat : ℤ) * 30 := by
  have h1 : (w : ℤ) ≤ max 2 (pyInt ((w : ℚ) * f)) :=
    le_trans (pyInt_w_ge w f hf) (le_max_right _ _)
  have h2 : (0 : ℤ) ≤ max 2 (pyInt ((w : ℚ) * f)) :=
    le_trans (by norm_num) (le_max_left _ _)
  rw [Int.toNat_of_nonneg h2]
  exact mul_le_mul_of_nonneg_right h1 (by norm_num)

lemma scaleObs_spec (f : ℚ) (hf : 1 ≤ f) (o : ObstacleSpec) :
    (resolveWH (scaleObs f o).bar_parts).2 = (resolveWH o.bar_parts).2 ∧
      (resolveWH o.bar_parts).1 ≤ (resolveWH (scaleObs f o).bar_parts).1 ∧
      gapAfter (scaleObs f o) = gapAfter o ∧
      (scaleObs f o).is_killzone = o.is_killzone := by
  obtain ⟨tag, parts, gm, kz⟩ := o
  cases tag with
  | false => exact ⟨rfl, le_refl _, rfl, rfl⟩
  | true =>
    rcases parts with _ | ⟨w, _ | ⟨p1, _ | ⟨p2, _ | ⟨p3, rest⟩⟩⟩⟩
    · exact ⟨rfl, le_refl _, rfl, rfl⟩
    · exact ⟨rfl, le_refl _, rfl, rfl⟩
    · exact ⟨rfl, w_le_scaled w f hf, rfl, rfl⟩
    · exact ⟨rfl, w_le_scaled w f hf, rfl, rfl⟩
    · exact ⟨rfl, w_le_scaled w f hf, rfl, rfl⟩

lemma trajAux_shift (δ : ℚ) :
    ∀ (n : ℕ) (sx x y vy : ℚ),
      trajAux (sx + δ) (x + δ) y vy n =
        (trajAux sx x y vy n).map (fun p => (p.1 + δ, p.2)) := by
  intro n
  induction n with
  | zero => intro sx x y vy; rfl
  | succ n ih =>
    intro sx x y vy
    rw [trajAux, trajAux]
    have hcond : (sx + δ + (MAX_JUMP_DISTANCE : ℚ) + 100 < x + δ + PLAYER_SPEED) ↔
        (sx + (MAX_JUMP_DISTANCE : ℚ) + 100 < x + PLAYER_SPEED) := by
      constructor <;> intro h <;> linarith
    have hiff : ((GROUND_Y : ℚ) ≤ y + vy ∨
        sx + δ + (MAX_JUMP_DISTANCE : ℚ) + 100 < x + δ + PLAYER_SPEED) ↔
        ((GROUND_Y : ℚ) ≤ y + vy ∨
          sx + (MAX_JUMP_DISTANCE : ℚ) + 100 < x + PLAYER_SPEED) :=
      or_congr Iff.rfl hcond
    by_cases hc : (GROUND_Y : ℚ) ≤ y + vy ∨
        sx + (MAX_JUMP_DISTANCE : ℚ) + 100 < x + PLAYER_SPEED
    · rw [if_pos (hiff.mpr hc), if_pos hc]
      rfl
    · rw [if_neg (fun h => hc (hiff.mp h)), if_neg hc]
      rw [List.map_cons]
      congr 1
      have hx : x + δ + PLAYER_SPEED = x + PLAYER_SPEED + δ := by ring
      rw [hx]
      exact ih sx (x + PLAYER_SPEED) (y + vy) (vy + GRAVITY)

lemma calculate_shift (sx sy δ : ℚ) :
    calculate_jump_trajectory (sx + δ) sy =
      (calculate_jump_trajectory sx sy).map (fun p => (p.1 + δ, p.2)) :=
  trajAux_shift δ 50 sx sx sy JUMP_POWER

lemma can_reach_mono (p1 n1 p2 n2 : Platform)
    (hy : p2.y_top = p1.y_top) (hny : n2.y_top = n1.y_top)
    (hrel : n2.x - (p2.x + p2.width) = n1.x - (p1.x + p1.width))
    (hw : n1.width ≤ n2.width)
    (h : (can_reach_platform p1 n1).1 = true) :
    (can_reach_platform p2 n2).1 = true := by
  rw [can_reach_iff] at h ⊢
  obtain ⟨p, hp, ⟨h1, h2⟩, h3⟩ := h
  have hsx : ((p2.x + p2.width : ℤ) : ℚ) =
      ((p1.x + p1.width : ℤ) : ℚ) + (((p2.x + p2.width) - (p1.x + p1.width) : ℤ) : ℚ) := by
    push_cast
    ring
  have hmem : (p.1 + (((p2.x + p2.width) - (p1.x + p1.width) : ℤ) : ℚ), p.2) ∈
      calculate_jump_trajectory ((p2.x + p2.width : ℤ) : ℚ) (p2.y_top : ℚ) := by
    rw [hsx, hy, calculate_shift]
    exact List.mem_map.mpr ⟨p, hp, rfl⟩
  refine ⟨_, hmem, ⟨?_, ?_⟩, ?_⟩
  · have hnx : (n2.x : ℚ) =
        (n1.x : ℚ) + (((p2.x + p2.width) - (p1.x + p1.width) : ℤ) : ℚ) := by
      have h0 : n2.x = n1.x + ((p2.x + p2.width) - (p1.x + p1.width)) := by omega
      rw [h0]
      push_cast
      ring
    rw [hnx]
    simp only
    linarith
  · have hnx : (n2.x : ℚ) =
        (n1.x : ℚ) + (((p2.x + p2.width) - (p1.x + p1.width) : ℤ) : ℚ) := by
      have h0 : n2.x = n1.x + ((p2.x + p2.width) - (p1.x + p1.width)) := by omega
      rw [h0]
      push_cast
      ring
    have hwq : (n1.width : ℚ) ≤ (n2.width : ℚ) := by exact_mod_cast hw
    rw [hnx]
    simp only
    linarith
  · rw [hny]
    simp only
    exact h3

lemma walk_mono (f : ℚ) (hf : 1 ≤ f) :
    ∀ (l : List ObstacleSpec) (i : ℕ) (t1 t2 : Bool) (p1 p2 : Platform) (x1 x2 : ℤ),
      p2.y_top = p1.y_top → p2.is_killzone = p1.is_killzone →
      x1 - (p1.x + p1.width) = x2 - (p2.x + p2.width) →
      (validateWalk i t1 p1 (buildAux x1 l)).1 = true →
      (validateWalk i t2 p2 (buildAux x2 (l.map (scaleObs f)))).1 = true := by
  intro l
  induction l with
  | nil =>
    intro i t1 t2 p1 p2 x1 x2 _ _ _ _
    rfl
  | cons o rest ih =>
    intro i t1 t2 p1 p2 x1 x2 hy hkz hrel hval
    obtain ⟨hh, hwle, hg, hkzo⟩ := scaleObs_spec f hf o
    rw [buildAux] at hval
    rw [List.map_cons, buildAux]
    have hcy : (⟨x2, GROUND_Y - (resolveWH (scaleObs f o).bar_parts).2,
        (resolveWH (scaleObs f o).bar_parts).1, (scaleObs f o).is_killzone⟩ :
          Platform).y_top =
        (⟨x1, GROUND_Y - (resolveWH o.bar_parts).2, (resolveWH o.bar_parts).1,
          o.is_killzone⟩ : Platform).y_top := by
      show GROUND_Y - (resolveWH (scaleObs f o).bar_parts).2 =
        GROUND_Y - (resolveWH o.bar_parts).2
      rw [hh]
    have hrel2 : (x1 + (resolveWH o.bar_parts).1 + gapAfter o) -
        ((⟨x1, GROUND_Y - (resolveWH o.bar_parts).2, (resolveWH o.bar_parts).1,
          o.is_killzone⟩ : Platform).x +
         (⟨x1, GROUND_Y - (resolveWH o.bar_parts).2, (resolveWH o.bar_parts).1,
          o.is_killzone⟩ : Platform).width) =
        (x2 + (resolveWH (scaleObs f o).bar_parts).1 + gapAfter (scaleObs f o)) -
        ((⟨x2, GROUND_Y - (resolveWH (scaleObs f o).bar_parts).2,
          (resolveWH (scaleObs f o).bar_parts).1, (scaleObs f o).is_killzone⟩ :
            Platform).x +
         (⟨x2, GROUND_Y - (resolveWH (scaleObs f o).bar_parts).2,
          (resolveWH (scaleObs f o).bar_parts).1, (scaleObs f o).is_killzone⟩ :
            Platform).width) := by
      show (x1 + (resolveWH o.bar_parts).1 + gapAfter o) -
          (x1 + (resolveWH o.bar_parts).1) =
        (x2 + (resolveWH (scaleObs f o).bar_parts).1 + gapAfter (scaleObs f o)) -
          (x2 + (resolveWH (scaleObs f o).bar_parts).1)
      rw [hg]
      omega
    cases hkzc : o.is_killzone with
    | true =>
      rw [validateWalk] at hval
      rw [validateWalk]
      rw [if_pos (show ((⟨x1, _, _, o.is_killzone⟩ : Platform).is_killzone = true)
        from hkzc)] at hval
      rw [if_pos (show ((⟨x2, _, _, (scaleObs f o).is_killzone⟩ :
        Platform).is_killzone = true) by rw [hkzo]; exact hkzc)]
      exact ih (i + 1) t1 t2 _ _ _ _ hcy hkzo hrel2 hval
    | false =>
      rw [validateWalk] at hval
      rw [validateWalk]
      have hnc1 : ¬((⟨x1, GROUND_Y - (resolveWH o.bar_parts).2,
          (resolveWH o.bar_parts).1, o.is_killzone⟩ : Platform).is_killzone = true) := by
        show ¬(o.is_killzone = true)
        rw [hkzc]
        simp
      have hnc2 : ¬((⟨x2, GROUND_Y - (resolveWH (scaleObs f o).bar_parts).2,
          (resolveWH (scaleObs f o).bar_parts).1,
          (scaleObs f o).is_killzone⟩ : Platform).is_killzone = true) := by
        show ¬((scaleObs f o).is_killzone = true)
        rw [hkzo, hkzc]
        simp
      rw [if_neg hnc1] at hval
      rw [if_neg hnc2]
      cases hpk : p1.is_killzone with
      | true =>
        rw [if_pos hpk] at hval
        rw [if_pos (by rw [hkz]; exact hpk)]
        rcases hcr1 : can_reach_platform ⟨p1.x, GROUND_Y, p1.width, false⟩
            ⟨x1, GROUND_Y - (resolveWH o.bar_parts).2, (resolveWH o.bar_parts).1,
              o.is_killzone⟩ with ⟨b1, m1⟩
        rw [hcr1] at hval
        cases b1 with
        | false => exact absurd hval (by simp)
        | true =>
          have hcr2 : (can_reach_platform ⟨p2.x, GROUND_Y, p2.width, false⟩
              ⟨x2, GROUND_Y - (resolveWH (scaleObs f o).bar_parts).2,
                (resolveWH (scaleObs f o).bar_parts).1,
                (scaleObs f o).is_killzone⟩).1 = true := by
            apply can_reach_mono ⟨p1.x, GROUND_Y, p1.width, false⟩
              ⟨x1, GROUND_Y - (resolveWH o.bar_parts).2, (resolveWH o.bar_parts).1,
                o.is_killzone⟩
              ⟨p2.x, GROUND_Y, p2.width, false⟩
              ⟨x2, GROUND_Y - (resolveWH (scaleObs f o).bar_parts).2,
                (resolveWH (scaleObs f o).bar_parts).1, (scaleObs f o).is_killzone⟩
              rfl hcy ?_ hwle ?_
            · show x2 - (p2.x + p2.width) = x1 - (p1.x + p1.width)
              omega
            · rw [hcr1]
          rcases hcr2e : can_reach_platform ⟨p2.x, GROUND_Y, p2.width, false⟩
              ⟨x2, GROUND_Y - (resolveWH (scaleObs f o).bar_parts).2,
                (resolveWH (scaleObs f o).bar_parts).1,
                (scaleObs f o).is_killzone⟩ with ⟨b2, m2⟩
          rw [hcr2e] at hcr2
          simp only at hcr2
          subst hcr2
          exact ih (i + 1) true true _ _ _ _ hcy hkzo hrel2 hval
      | false =>
        rw [if_neg (by rw [hpk]; simp)] at hval
        rw [if_neg (by rw [hkz, hpk]; simp)]
        rcases hcr1 : can_reach_platform p1
            ⟨x1, GROUND_Y - (resolveWH o.bar_parts).2, (resolveWH o.bar_parts).1,
              o.is_killzone⟩ with ⟨b1, m1⟩
        rw [hcr1] at hval
        cases b1 with
        | false => exact absurd hval (by simp)
        | true =>
          have hcr2 : (can_reach_platform p2
              ⟨x2, GROUND_Y - (resolveWH (scaleObs f o).bar_parts).2,
                (resolveWH (scaleObs f o).bar_parts).1,
                (scaleObs f o).is_killzone⟩).1 = true := by
            apply can_reach_mono p1
              ⟨x1, GROUND_Y - (resolveWH o.bar_parts).2, (resolveWH o.bar_parts).1,
                o.is_killzone⟩
              p2
              ⟨x2, GROUND_Y - (resolveWH (scaleObs f o).bar_parts).2,
                (resolveWH (scaleObs f o).bar_parts).1, (scaleObs f o).is_killzone⟩
              hy hcy ?_ hwle ?_
            · show x2 - (p2.x + p2.width) = x1 - (p1.x + p1.width)
              omega
            · rw [hcr1]
          rcases hcr2e : can_reach_platform p2
              ⟨x2, GROUND_Y - (resolveWH (scaleObs f o).bar_parts).2,
                (resolveWH (scaleObs f o).bar_parts).1,
                (scaleObs f o).is_killzone⟩ with ⟨b2, m2⟩
          rw [hcr2e] at hcr2
          simp only at hcr2
          subst hcr2
          exact ih (i + 1) _ _ _ _ _ _ hcy hkzo hrel2 hval

/-- Claim C9: widening is monotone — any pattern accepted by the
trajectory-based validator is still accepted after scale_pattern_widths with
a factor f >= 1 (widths become max(2, int(w*f)); heights and gaps are
untouched). -/
theorem claim9_scaling (l : List ObstacleSpec) (f : ℚ) (hf : 1 ≤ f)
    (hv : (pe_validate l).1 = true) :
    (pe_validate (scale_pattern_widths l f)).1 = true := by
  cases l with
  | nil => exact absurd hv (by simp [pe_validate, buildPlatforms, buildAux])
  | cons o rest =>
    obtain ⟨hh, hwle, hg, hkzo⟩ := scaleObs_spec f hf o
    unfold pe_validate at hv ⊢
    rw [scale_pattern_widths, List.map_cons]
    rw [buildPlatforms, buildAux] at hv
    rw [buildPlatforms, buildAux]
    exact walk_mono f hf rest 1 false false
      ⟨800, GROUND_Y - (resolveWH o.bar_parts).2, (resolveWH o.bar_parts).1,
        o.is_killzone⟩
      ⟨800, GROUND_Y - (resolveWH (scaleObs f o).bar_parts).2,
        (resolveWH (scaleObs f o).bar_parts).1, (scaleObs f o).is_killzone⟩
      (800 + (resolveWH o.bar_parts).1 + gapAfter o)
      (800 + (resolveWH (scaleObs f o).bar_parts).1 + gapAfter (scaleObs f o))
      (by show GROUND_Y - (resolveWH (scaleObs f o).bar_parts).2 =
            GROUND_Y - (resolveWH o.bar_parts).2
          rw [hh])
      hkzo
      (by show (800 + (resolveWH o.bar_parts).1 + gapAfter o) -
            (800 + (resolveWH o.bar_parts).1) =
          (800 + (resolveWH (scaleObs f o).bar_parts).1 + gapAfter (scaleObs f o)) -
            (800 + (resolveWH (scaleObs f o).bar_parts).1)
          rw [hg]
          ring)
      hv

/-- Witness for C9: the valid floating pattern scaled by 1.25 stays valid. -/
theorem claim9_witness :
    (1 : ℚ) ≤ 1.25 ∧ (pe_validate floatGood).1 = true ∧
      (pe_validate (scale_pattern_widths floatGood 1.25)).1 = true := by
  have h1 : (1 : ℚ) ≤ 1.25 := by norm_num
  have h2 : (pe_validate floatGood).1 = true :=
    pe_two _ _ _ build_floatGood rfl rfl reach_floatGood
  exact ⟨h1, h2, claim9_scaling floatGood 1.25 h1 h2⟩

lemma ascending_go_length (stop step : ℤ) :
    ∀ (n : ℕ) (cur : ℤ), (pattern_generator_v3.ascending_go stop step n cur).length = n := by
  intro n
  induction n with
  | zero => intro cur; rfl
  | succ n ih =>
    intro cur
    rw [pattern_generator_v3.ascending_go]
    simp [ih]

lemma ascending_length (start stop : ℤ) (count : ℕ) :
    (pattern_generator_v3.ascending_heights start stop count).length = count := by
  unfold pattern_generator_v3.ascending_heights
  split
  · simp only [List.length_singleton]
    omega
  · exact ascending_go_length _ _ count start

lemma zigzag_go_length (min_h max_h : ℤ) :
    ∀ (n : ℕ) (cur : ℤ) (up : Bool),
      (pattern_generator_v3.zigzag_go min_h max_h n cur up).length = n := by
  intro n
  induction n with
  | zero => intro cur up; rfl
  | succ n ih =>
    intro cur up
    rw [pattern_generator_v3.zigzag_go]
    by_cases h : up = true
    · rw [if_pos h]
      simp [ih]
    · rw [if_neg h]
      simp [ih]

lemma alternating_go_length (low high : ℤ) :
    ∀ (n : ℕ) (cur : ℤ), (obstacle_builders.alternating_go low high n cur).length = n := by
  intro n
  induction n with
  | zero => intro cur; rfl
  | succ n ih =>
    intro cur
    rw [obstacle_builders.alternating_go]
    simp [ih]

/-- Claim C10 (amended): every sequence generator in scope returns exactly
`count` elements EXCEPT obstacle_builders.wave_heights, which returns
2*(count//2) elements (= count only when count is even; 0 for count=1), its
truncation never firing: the output is the ascending half followed by its
reverse. -/
theorem claim10_amended (start stop min_h max_h low high : ℤ) (count : ℕ) :
    (pattern_generator_v3.ascending_heights start stop count).length = count ∧
      (pattern_generator_v3.descending_heights start stop count).length = count ∧
      (pattern_generator_v3.wave_heights min_h max_h count).length = count ∧
      (pattern_generator_v3.zigzag_heights min_h max_h count).length = count ∧
      (obstacle_builders.alternating_heights count low high).length = count ∧
      (obstacle_builders.stepped_heights count low high).length = count ∧
      (obstacle_builders.wave_heights count low high).length = 2 * (count / 2) ∧
      obstacle_builders.wave_heights count low high =
        obstacle_builders.wave_ascending count low high ++
          (obstacle_builders.wave_ascending count low high).reverse := by
  have hasc : (obstacle_builders.wave_ascending count low high).length = count / 2 := by
    unfold obstacle_builders.wave_ascending
    rw [List.length_map, List.length_range]
  refine ⟨ascending_length start stop count, ?_, ?_,
    zigzag_go_length _ _ count min_h true, alternating_go_length _ _ count low,
    ?_, ?_, ?_⟩
  · unfold pattern_generator_v3.descending_heights
    rw [List.length_reverse, ascending_length]
  · unfold pattern_generator_v3.wave_heights pattern_generator_v3.descending_heights
    rw [List.length_append, List.length_reverse, ascending_length, ascending_length]
    omega
  · unfold obstacle_builders.stepped_heights
    simp
  · unfold obstacle_builders.wave_heights
    rw [List.length_take, List.length_append, List.length_reverse, hasc]
    omega
  · unfold obstacle_builders.wave_heights
    apply List.take_of_length_le
    rw [List.length_append, List.length_reverse, hasc]
    omega

/-- Counterexample for C10: at count=3 (with 1 <= 4) the builders' wave
generator returns only 2 heights, not 3. -/
theorem claim10_counterexample :
    (obstacle_builders.wave_heights 3 1 4).length = 2 ∧
      (obstacle_builders.wave_heights 3 1 4).length ≠ 3 := by
  have h : (obstacle_builders.wave_heights 3 1 4).length = 2 := by
    unfold obstacle_builders.wave_heights obstacle_builders.wave_ascending
    rw [List.length_take, List.length_append, List.length_reverse, List.length_map,
      List.length_range]
    rfl
  exact ⟨h, by omega⟩
